import Mathlib

/-
Verification of the cinematic-image-generator pipeline (src/app.py).
The Python source is shallowly embedded: pure helpers become Lean functions,
the imperative loops become folds or structural recursions over explicit
state records, and the remote service is an oracle parameter (one abstract
response per request), so every run of the embedded code is a function of
its inputs and the oracle.
-/

namespace Cinematic

/-- Retry budget of the poll loop, source constant MAX_RETRIES. -/
def MAX_RETRIES : Nat := 30

/-- Fixed inter-attempt delay of the poll loop, source constant RETRY_DELAY. -/
def RETRY_DELAY : Nat := 2

/-- Upper bound on batch size, source constant MAX_IMAGES. -/
def MAX_IMAGES : Nat := 252

/-- Model id of the Alchemy entry of the MODELS table. -/
def MODELS_Alchemy : String := "ac614f96-1082-45bf-be9d-757f2d31c174"

/-- Model id of the PhotoReal entry of the MODELS table. -/
def MODELS_PhotoReal : String := "291be633-cb24-434f-898f-e662799936ad"

/-- One scene as produced by parse_script: a stripped script line and a
stripped (possibly empty) description. -/
structure Scene where
  script : String
  description : String
  deriving DecidableEq

/-- ASCII whitespace as stripped by Python str.strip (Python additionally
strips some Unicode whitespace, which no claim touches). -/
def isSpaceChar (c : Char) : Bool :=
  c = ' ' || c = '\t' || c = '\n' || c = '\r' || c = '\x0b' || c = '\x0c'

/-- Python str.strip on the character list: drop whitespace from both
ends. -/
def stripChars (cs : List Char) : List Char :=
  ((cs.dropWhile isSpaceChar).reverse.dropWhile isSpaceChar).reverse

/-- Python str.strip. -/
def pyStrip (s : String) : String := String.mk (stripChars s.data)

/-- Python str.split on a single newline over the character list: the
empty text yields one empty field, and every newline starts a new field. -/
def splitNl : List Char → List (List Char)
  | [] => [[]]
  | c :: rest =>
    match splitNl rest with
    | [] => []
    | h :: t => if c = '\n' then [] :: h :: t else (c :: h) :: t

/-- Python script.split of parse_script, for the separator newline. -/
def pySplitLines (s : String) : List String := (splitNl s.data).map String.mk

/-- Loop body of parse_script over the list of lines (source lines 85-99).
Python advances the index by 2 when a non-blank following line is consumed
as description and by 1 otherwise; here that is recursion on the remaining
lines. A blank line (strip empty) is skipped. -/
def parse_script_lines : List String → List Scene
  | [] => []
  | [l] =>
    if pyStrip l ≠ "" then [{ script := pyStrip l, description := "" }] else []
  | l :: r :: rest =>
    if pyStrip l ≠ "" then
      if pyStrip r ≠ "" then
        { script := pyStrip l, description := pyStrip r } :: parse_script_lines rest
      else
        { script := pyStrip l, description := "" } :: parse_script_lines (r :: rest)
    else
      parse_script_lines (r :: rest)

/-- parse_script from the source: split the raw script on line breaks and
run the scanning loop. -/
def parse_script (script : String) : List Scene :=
  parse_script_lines (pySplitLines script)

/-- A reference image as consumed by the prompt synthesizer: its semantic
tag and user description. -/
structure RefImage where
  tag : String
  description : String
  deriving DecidableEq

/-- Single-quote character, written by code point to keep the source text
plain. -/
def sq : String := String.singleton (Char.ofNat 39)

/-- The constant cinematic-quality clause appended to every prompt
(source line 108), including its leading sentence separator. -/
def cinematicClause : String :=
  ". Professional cinematography, 8k resolution, dramatic composition, cinematic lighting, atmospheric depth, high-end production quality."

/-- The per-reference conditioning clause chosen by tag
(source lines 113-120). -/
def refClause (ref : RefImage) : String :=
  if ref.tag = "character" then
    "Maintain exact character likeness from reference image " ++ sq ++ ref.description ++ sq ++ ", including facial features, expression, and style."
  else if ref.tag = "style" then
    "Match the visual style, lighting, and atmosphere from reference image " ++ sq ++ ref.description ++ sq ++ "."
  else if ref.tag = "location" then
    "Use the environment and setting details from reference image " ++ sq ++ ref.description ++ sq ++ "."
  else
    "Incorporate elements from reference image " ++ sq ++ ref.description ++ sq ++ " for " ++ ref.tag ++ " consistency."

/-- Python " ".join translated literally. -/
def joinSpace : List String → String
  | [] => ""
  | [s] => s
  | s :: rest => s ++ " " ++ joinSpace rest

/-- generate_cinematic_prompt from the source (lines 101-123): base clause,
optional description, fixed cinematic clause, then the space-joined
tag-determined clauses of the references in list order. -/
def generate_cinematic_prompt (scene : Scene) (scene_num : Nat) (reference_images : List RefImage) : String :=
  let base1 := "Scene " ++ toString scene_num ++ ": " ++ scene.script
  let base2 := if scene.description ≠ "" then base1 ++ ". " ++ scene.description else base1
  let base3 := base2 ++ cinematicClause
  if reference_images ≠ [] then
    base3 ++ " " ++ joinSpace (reference_images.map refClause)
  else
    base3

/-- Reference block as the spec words it: each registered reference
contributes its tag-determined clause, in registration order, each
preceded by a single separating space. -/
def spec_ref_block : List RefImage → String
  | [] => ""
  | r :: rest => " " ++ refClause r ++ spec_ref_block rest

/-- Prompt shape as the spec words it: base clause, then the description
clause when the description is non-empty, then the fixed cinematic-quality
clause, then the reference block. -/
def synthesize_spec (scene : Scene) (scene_num : Nat) (refs : List RefImage) : String :=
  "Scene " ++ toString scene_num ++ ": " ++ scene.script
    ++ (if scene.description ≠ "" then ". " ++ scene.description else "")
    ++ cinematicClause
    ++ spec_ref_block refs

/-- The constant negative prompt from create_generation (source line 154). -/
def NEGATIVE_PROMPT : String :=
  "blurry, low quality, distorted, deformed, ugly, bad anatomy, disfigured, poorly drawn face, mutation, mutated, extra limb, missing limb, floating limbs, disconnected limbs, malformed hands, blur, out of focus, long neck, long body, distorted proportions, bad proportions, gross proportions, text, error, missing fingers, cropped, worst quality, low quality, normal quality, jpeg artifacts, signature, watermark, username, blurry"

/-- The JSON payload assembled by create_generation; absent keys are none. -/
structure GenerationPayload where
  prompt : String
  modelId : String
  width : Nat
  height : Nat
  num_images : Nat
  init_image_ids : Option (List String)
  photoReal : Option Bool
  alchemy : Option Bool
  promptMagic : Option Bool
  negative_prompt : String
  deriving DecidableEq

/-- Payload construction of create_generation (source lines 133-154): base
fields, init images when the id list is truthy, the PhotoReal flag for the
PhotoReal model id and the alchemy plus promptMagic flags otherwise, and
the constant negative prompt. -/
def create_generation_payload (prompt : String) (model_id : String)
    (reference_image_ids : Option (List String)) : GenerationPayload :=
  let base : GenerationPayload :=
    { prompt := prompt, modelId := model_id, width := 1024, height := 576,
      num_images := 1, init_image_ids := none, photoReal := none,
      alchemy := none, promptMagic := none, negative_prompt := "" }
  let withRefs :=
    match reference_image_ids with
    | some ids => if ids ≠ [] then { base with init_image_ids := some ids } else base
    | none => base
  let withFlags :=
    if model_id = MODELS_PhotoReal then
      { withRefs with photoReal := some true }
    else
      { withRefs with alchemy := some true, promptMagic := some true }
  { withFlags with negative_prompt := NEGATIVE_PROMPT }

/-- One response of the remote service to a status query, as read by
get_generation_images: HTTP status code, raw body text, whether the JSON
contains the generations_by_pk object, and that object's status string,
generated-image URL list (empty when absent) and error message. -/
structure GenResponse where
  status_code : Nat
  text : String
  has_generations_by_pk : Bool
  status : String
  generated_images : List String
  error : String

/-- Observable outcome of the poll loop: the returned image data on
success, or which of the three distinct error reports was issued. -/
inductive PollResult where
  | complete (images : List String)
  | httpError (body : String)
  | genFailed (msg : String)
  | timedOut
  deriving DecidableEq

/-- Trace of one run of the poll loop: its outcome, how many status
queries were issued, and how many RETRY_DELAY sleeps were performed. -/
structure PollTrace where
  result : PollResult
  queries : Nat
  sleeps : Nat
  deriving DecidableEq

/-- Loop body of get_generation_images (source lines 175-196), indexed by
the current attempt number and the remaining fuel out of MAX_RETRIES. A
non-200 response stops with the http error report; COMPLETE with a
non-empty image list returns the data; FAILED stops with the remote error;
anything else (including COMPLETE with no images, or a body without
generations_by_pk) sleeps RETRY_DELAY and retries. Exhausted fuel is the
timeout report. -/
def pollFrom (responses : Nat → GenResponse) : Nat → Nat → PollTrace
  | _, 0 => { result := .timedOut, queries := 0, sleeps := 0 }
  | a, fuel + 1 =>
    let r := responses a
    if r.status_code ≠ 200 then
      { result := .httpError r.text, queries := 1, sleeps := 0 }
    else if r.has_generations_by_pk = true ∧ r.status = "COMPLETE" ∧ r.generated_images ≠ [] then
      { result := .complete r.generated_images, queries := 1, sleeps := 0 }
    else if r.has_generations_by_pk = true ∧ r.status = "FAILED" then
      { result := .genFailed r.error, queries := 1, sleeps := 0 }
    else
      let rest := pollFrom responses (a + 1) fuel
      { result := rest.result, queries := rest.queries + 1, sleeps := rest.sleeps + 1 }

/-- get_generation_images from the source: run the poll loop from attempt
0 with the full MAX_RETRIES budget, reading the k-th status response from
the oracle. -/
def get_generation_images (responses : Nat → GenResponse) : PollTrace :=
  pollFrom responses 0 MAX_RETRIES

/-- A response on which the poll loop keeps retrying: success code, and
the body neither completes with images nor reports FAILED. -/
def retriesOn (r : GenResponse) : Prop :=
  r.status_code = 200 ∧
    (r.has_generations_by_pk = true →
      ¬(r.status = "COMPLETE" ∧ r.generated_images ≠ []) ∧ r.status ≠ "FAILED")

/-- One entry of the generated_images list built by the main loop: image
URL and the exact prompt used (source lines 312-315). -/
structure GeneratedEntry where
  url : String
  prompt : String
  deriving DecidableEq

/-- Observable state accumulated by the generation loop of main: the
generated_images list, the error messages issued in order, and the
numerators i+1 of the progress reports (i+1)/n issued in order. -/
structure BatchState where
  generated_images : List GeneratedEntry
  errors : List String
  progress : List Nat
  deriving DecidableEq

/-- Loop body of the generation loop of main (source lines 287-317) for
scene index i. The submit oracle is create_generation's outcome for scene
i: some jobId when the response is truthy and carries sdGenerationJob,
none otherwise. The poll oracle is get_generation_images plus first-URL
extraction for scene i: some url on success, none when polling reported an
error. A failed submission or poll appends its error message and moves on;
a success appends the entry and reports progress. -/
def batchStep (scenes : List Scene) (refs : List RefImage)
    (submit poll : Nat → Option String) (st : BatchState) (i : Nat) : BatchState :=
  let prompt := generate_cinematic_prompt (scenes.getD i { script := "", description := "" }) (i + 1) refs
  match submit i with
  | none =>
    { st with errors := st.errors ++ ["Failed to create generation for scene " ++ toString (i + 1)] }
  | some _ =>
    match poll i with
    | none =>
      { st with errors := st.errors ++ ["Failed to get images for scene " ++ toString (i + 1)] }
    | some url =>
      { st with
        generated_images := st.generated_images ++ [{ url := url, prompt := prompt }],
        progress := st.progress ++ [i + 1] }

/-- The generation loop of main: scenes 0..n-1 in order, starting from the
empty state. -/
def runBatch (scenes : List Scene) (refs : List RefImage)
    (submit poll : Nat → Option String) (n : Nat) : BatchState :=
  (List.range n).foldl (batchStep scenes refs submit poll)
    { generated_images := [], errors := [], progress := [] }

/-- Outcome of scene i in the main loop: the image URL when both the
submission and the poll succeed, none otherwise. -/
def sceneSuccess (submit poll : Nat → Option String) (i : Nat) : Option String :=
  match submit i with
  | none => none
  | some _ => poll i

/-- Error message the main loop issues for scene i, when any. -/
def sceneError (submit poll : Nat → Option String) (i : Nat) : Option String :=
  match submit i with
  | none => some ("Failed to create generation for scene " ++ toString (i + 1))
  | some _ =>
    match poll i with
    | none => some ("Failed to get images for scene " ++ toString (i + 1))
    | some _ => none

/-- One reference-image form row of main (source lines 240-253): the
uploaded file when present (identified by a numeric image identity, since
the source deduplicates by object identity), its description and tag. -/
structure RefInput where
  image : Option Nat
  description : String
  tag : String
  deriving DecidableEq

/-- One element of the uploaded_refs list of main (source lines 260-265). -/
structure UploadedRef where
  image : Nat
  description : String
  tag : String
  id : String
  deriving DecidableEq

/-- State of the reference-registration loop: the uploaded_refs cache and
the image identities for which upload_reference_image was invoked, in
order (each such invocation issues network requests). -/
structure RegState where
  uploaded_refs : List UploadedRef
  upload_calls : List Nat
  deriving DecidableEq

/-- Body of the reference-upload loop of main (source lines 253-273) for
one form row. A row is processed only when both a file and a description
are present; an image already in uploaded_refs is skipped without any
call; otherwise upload_reference_image is invoked, the oracle giving the
remoteId it returns (none for a failed upload, which leaves the cache
unchanged). -/
def registerStep (oracle : Nat → Option String) (st : RegState) (r : RefInput) : RegState :=
  match r.image with
  | none => st
  | some img =>
    if r.description = "" then st
    else if st.uploaded_refs.any (fun u => u.image = img) then st
    else
      match oracle img with
      | some rid =>
        { uploaded_refs := st.uploaded_refs ++ [{ image := img, description := r.description, tag := r.tag, id := rid }],
          upload_calls := st.upload_calls ++ [img] }
      | none => { st with upload_calls := st.upload_calls ++ [img] }

/-- The reference-upload loop of main over all form rows, starting from
the empty cache. -/
def registerAll (oracle : Nat → Option String) (inputs : List RefInput) : RegState :=
  inputs.foldl (registerStep oracle) { uploaded_refs := [], upload_calls := [] }

/-- The reference_images list passed to the synthesizer, built from the
successful uploads in order (source lines 266-270). -/
def refsOf (reg : RegState) : List RefImage :=
  reg.uploaded_refs.map (fun u => { tag := u.tag, description := u.description })

/-- Whole-run observables of main once the generate button is pressed:
upload invocations during form handling, whether the missing-credential
error fired, how many create_generation calls and how many
get_generation_images calls were made, and the generation-loop state. -/
structure MainTrace where
  upload_calls : List Nat
  config_error : Bool
  submit_calls : Nat
  poll_calls : Nat
  batch : BatchState
  deriving DecidableEq

/-- main from the source, for a pressed generate button: the reference
rows are processed during form rendering (before any credential check);
then a missing API key stops with the configuration error before any
submission or poll, while with a key present every scene gets exactly one
submission and one poll per successful submission (source lines 240-317).  -/
def mainRun (apiKey : Option String) (oracle : Nat → Option String)
    (refInputs : List RefInput) (scenes : List Scene) (n : Nat)
    (submit poll : Nat → Option String) : MainTrace :=
  let reg := registerAll oracle refInputs
  match apiKey with
  | none =>
    { upload_calls := reg.upload_calls, config_error := true,
      submit_calls := 0, poll_calls := 0,
      batch := { generated_images := [], errors := [], progress := [] } }
  | some _ =>
    { upload_calls := reg.upload_calls, config_error := false,
      submit_calls := n,
      poll_calls := ((List.range n).filter (fun i => (submit i).isSome)).length,
      batch := runBatch scenes (refsOf reg) submit poll n }

/-- The space-join of the mapped clauses, preceded by one space, is the
reference block of the spec reading, for a non-empty reference list. -/
lemma join_eq_spec_ref_block : ∀ (l : List RefImage), l ≠ [] →
    " " ++ joinSpace (l.map refClause) = spec_ref_block l
  | [r], _ => by
    simp [joinSpace, spec_ref_block, String.append_empty]
  | r :: r2 :: rest, _ => by
    have ih := join_eq_spec_ref_block (r2 :: rest) (by simp)
    simp only [List.map, joinSpace, spec_ref_block] at ih ⊢
    rw [← ih]
    simp [String.append_assoc]

/-- C7: the synthesized prompt is exactly the base clause, the optional
description clause, the fixed cinematic-quality clause, and one
tag-determined conditioning clause per reference in registration order
separated by single spaces; being a pure function of its inputs, identical
inputs give byte-identical prompts. -/
theorem c7_prompt_synthesis (scene : Scene) (scene_num : Nat) (refs : List RefImage) :
    generate_cinematic_prompt scene scene_num refs = synthesize_spec scene scene_num refs := by
  unfold generate_cinematic_prompt synthesize_spec
  by_cases hr : refs = []
  · subst hr
    by_cases hd : scene.description = "" <;>
      simp [hd, spec_ref_block, String.append_empty, String.append_assoc]
  · have hb := join_eq_spec_ref_block refs hr
    rw [← hb]
    by_cases hd : scene.description = "" <;>
      simp [hd, hr, String.append_empty, String.append_assoc]

/-- C5: the payload built by create_generation carries the photoReal flag
and neither alchemy nor promptMagic exactly when the model is the
PhotoReal variant, and carries alchemy plus promptMagic and no photoReal
for every other model id. -/
theorem c5_model_flag_exclusivity (prompt model_id : String) (ref_ids : Option (List String)) :
    ((create_generation_payload prompt model_id ref_ids).photoReal
        = if model_id = MODELS_PhotoReal then some true else none) ∧
    ((create_generation_payload prompt model_id ref_ids).alchemy
        = if model_id = MODELS_PhotoReal then none else some true) ∧
    ((create_generation_payload prompt model_id ref_ids).promptMagic
        = if model_id = MODELS_PhotoReal then none else some true) := by
  unfold create_generation_payload
  rcases ref_ids with _ | ids
  · by_cases h : model_id = MODELS_PhotoReal <;> simp [h]
  · by_cases h : model_id = MODELS_PhotoReal <;> by_cases hi : ids = [] <;> simp [h, hi]

/-- C8: parse_script splits on line breaks and skips blank lines; a
non-blank line starts a scene, a non-blank immediately following line is
consumed as its description with the parse advancing two lines, otherwise
the description is empty and the parse advances one line; empty input
gives no scenes, and the paired example parses as stated. -/
theorem c8_parse_script :
    parse_script "" = [] ∧
    parse_script "A\ndescA\nB" =
      [{ script := "A", description := "descA" }, { script := "B", description := "" }] ∧
    (∀ s : String, parse_script s = parse_script_lines (pySplitLines s)) ∧
    (∀ (l : String) (rest : List String), pyStrip l = "" →
      parse_script_lines (l :: rest) = parse_script_lines rest) ∧
    (∀ (l r : String) (rest : List String), pyStrip l ≠ "" → pyStrip r ≠ "" →
      parse_script_lines (l :: r :: rest) =
        { script := pyStrip l, description := pyStrip r } :: parse_script_lines rest) ∧
    (∀ (l r : String) (rest : List String), pyStrip l ≠ "" → pyStrip r = "" →
      parse_script_lines (l :: r :: rest) =
        { script := pyStrip l, description := "" } :: parse_script_lines (r :: rest)) ∧
    (∀ l : String, pyStrip l ≠ "" → parse_script_lines [l] = [{ script := pyStrip l, description := "" }]) := by
  refine ⟨by decide, by decide, fun s => rfl, ?_, ?_, ?_, ?_⟩
  · intro l rest h
    cases rest <;> simp [parse_script_lines, h]
  · intro l r rest h1 h2
    simp [parse_script_lines, h1, h2]
  · intro l r rest h1 h2
    simp [parse_script_lines, h1, h2]
  · intro l h
    simp [parse_script_lines, h]

/-- Witness for C8 at concrete inputs: the two-line pairing law applied to
the lines X and Y. -/
theorem c8_parse_script_witness :
    (pyStrip "X" ≠ "" ∧ pyStrip "Y" ≠ "") ∧
    parse_script_lines ["X", "Y"] = [{ script := "X", description := "Y" }] := by
  refine ⟨⟨by decide, by decide⟩, ?_⟩
  have h := c8_parse_script.2.2.2.2.1 "X" "Y" [] (by decide) (by decide)
  simpa using h

/-- A run of the poll loop over responses that all keep it retrying uses
its whole fuel, sleeping after every attempt, and ends in the timeout
report. -/
lemma pollFrom_all_retries (responses : Nat → GenResponse) :
    ∀ (fuel a : Nat), (∀ k, k < fuel → retriesOn (responses (a + k))) →
      pollFrom responses a fuel = { result := .timedOut, queries := fuel, sleeps := fuel } := by
  intro fuel
  induction fuel with
  | zero => intro a _; rfl
  | succ fuel ih =>
    intro a h
    have h0 : retriesOn (responses a) := by
      have := h 0 (Nat.succ_pos _)
      simpa using this
    have hc1 : ¬((responses a).status_code ≠ 200) := by simp [h0.1]
    have hc2 : ¬((responses a).has_generations_by_pk = true ∧
        (responses a).status = "COMPLETE" ∧ (responses a).generated_images ≠ []) := by
      rintro ⟨hg, hs, hi⟩
      exact (h0.2 hg).1 ⟨hs, hi⟩
    have hc3 : ¬((responses a).has_generations_by_pk = true ∧ (responses a).status = "FAILED") := by
      rintro ⟨hg, hs⟩
      exact (h0.2 hg).2 hs
    have hrest : pollFrom responses (a + 1) fuel = { result := .timedOut, queries := fuel, sleeps := fuel } := by
      apply ih
      intro k hk
      have := h (k + 1) (Nat.succ_lt_succ hk)
      simpa [Nat.add_assoc, Nat.add_comm 1 k] using this
    simp [pollFrom, hc1, hc2, hc3, hrest]

/-- A run of the poll loop that sees k responses it retries on and then a
non-success response stops right there with the http-error report, after
exactly k + 1 queries and k sleeps. -/
lemma pollFrom_http_stop (responses : Nat → GenResponse) :
    ∀ (k a fuel : Nat), k < fuel → (∀ j, j < k → retriesOn (responses (a + j))) →
      (responses (a + k)).status_code ≠ 200 →
      pollFrom responses a fuel =
        { result := .httpError (responses (a + k)).text, queries := k + 1, sleeps := k } := by
  intro k
  induction k with
  | zero =>
    intro a fuel hf _ hbad
    rcases fuel with _ | fuel
    · omega
    · have hbad2 : (responses a).status_code ≠ 200 := by simpa using hbad
      have hstep : pollFrom responses a (fuel + 1) =
          { result := .httpError (responses a).text, queries := 1, sleeps := 0 } := by
        simp [pollFrom, hbad2]
      simpa using hstep
  | succ k ih =>
    intro a fuel hf hpre hbad
    rcases fuel with _ | fuel
    · omega
    · have h0 : retriesOn (responses a) := by
        have := hpre 0 (Nat.succ_pos _)
        simpa using this
      have hc1 : ¬((responses a).status_code ≠ 200) := by simp [h0.1]
      have hc2 : ¬((responses a).has_generations_by_pk = true ∧
          (responses a).status = "COMPLETE" ∧ (responses a).generated_images ≠ []) := by
        rintro ⟨hg, hs, hi⟩
        exact (h0.2 hg).1 ⟨hs, hi⟩
      have hc3 : ¬((responses a).has_generations_by_pk = true ∧ (responses a).status = "FAILED") := by
        rintro ⟨hg, hs⟩
        exact (h0.2 hg).2 hs
      have hrest := ih (a + 1) fuel (Nat.lt_of_succ_lt_succ hf)
        (by
          intro j hj
          have := hpre (j + 1) (Nat.succ_lt_succ hj)
          simpa [Nat.add_assoc, Nat.add_comm 1 j] using this)
        (by
          have : a + 1 + k = a + (k + 1) := by omega
          simpa [this] using hbad)
      have hidx : a + 1 + k = a + (k + 1) := by omega
      rw [hidx] at hrest
      simp [pollFrom, hc1, hc2, hc3, hrest]

/-- C4: when every status query succeeds with a non-terminal status, the
poll loop makes exactly MAX_RETRIES = 30 query attempts with a fixed
RETRY_DELAY = 2 sleep after each, then reports timeout, which is a report
distinct from the remote-failure and success reports. -/
theorem c4_poll_timeout_bound (responses : Nat → GenResponse)
    (h : ∀ k, k < MAX_RETRIES → (responses k).status_code = 200 ∧
      (responses k).has_generations_by_pk = true ∧
      (responses k).status ≠ "COMPLETE" ∧ (responses k).status ≠ "FAILED") :
    get_generation_images responses =
      { result := .timedOut, queries := MAX_RETRIES, sleeps := MAX_RETRIES } ∧
    MAX_RETRIES = 30 ∧ RETRY_DELAY = 2 ∧
    (∀ msg, (get_generation_images responses).result ≠ PollResult.genFailed msg) ∧
    (∀ imgs, (get_generation_images responses).result ≠ PollResult.complete imgs) := by
  have hmain : get_generation_images responses =
      { result := .timedOut, queries := MAX_RETRIES, sleeps := MAX_RETRIES } := by
    apply pollFrom_all_retries
    intro k hk
    have hk2 := h k (by simpa using hk)
    exact ⟨by simpa using hk2.1,
      by
        intro hg
        exact ⟨by rintro ⟨hs, _⟩; exact hk2.2.2.1 (by simpa using hs), by simpa using hk2.2.2.2⟩⟩
  refine ⟨hmain, rfl, rfl, ?_, ?_⟩
  · intro msg
    rw [hmain]
    simp
  · intro imgs
    rw [hmain]
    simp

/-- Witness for C4: a stream of PENDING responses polls 30 times, sleeps
30 times and times out. -/
theorem c4_poll_timeout_bound_witness :
    get_generation_images (fun _ =>
      { status_code := 200, text := "", has_generations_by_pk := true,
        status := "PENDING", generated_images := [], error := "" }) =
      { result := .timedOut, queries := 30, sleeps := 30 } := by
  have h := c4_poll_timeout_bound (fun _ =>
      { status_code := 200, text := "", has_generations_by_pk := true,
        status := "PENDING", generated_images := [], error := "" })
    (by intro k _; refine ⟨rfl, rfl, ?_, ?_⟩ <;> simp)
  exact h.1

/-- C10: when every status query succeeds with status COMPLETE but an
empty image list, the poll loop never returns success: it retries each
time and, the budget exhausted, reports timeout after 30 attempts. -/
theorem c10_complete_without_images (responses : Nat → GenResponse)
    (h : ∀ k, k < MAX_RETRIES → (responses k).status_code = 200 ∧
      (responses k).has_generations_by_pk = true ∧
      (responses k).status = "COMPLETE" ∧ (responses k).generated_images = []) :
    get_generation_images responses =
      { result := .timedOut, queries := MAX_RETRIES, sleeps := MAX_RETRIES } ∧
    (∀ imgs, (get_generation_images responses).result ≠ PollResult.complete imgs) := by
  have hmain : get_generation_images responses =
      { result := .timedOut, queries := MAX_RETRIES, sleeps := MAX_RETRIES } := by
    apply pollFrom_all_retries
    intro k hk
    have hk2 := h k (by simpa using hk)
    refine ⟨by simpa using hk2.1, ?_⟩
    intro _
    constructor
    · rintro ⟨_, hi⟩
      exact hi (by simpa using hk2.2.2.2)
    · have hs := hk2.2.2.1
      simp [hs]
  refine ⟨hmain, ?_⟩
  intro imgs
  rw [hmain]
  simp

/-- Witness for C10: a stream of COMPLETE responses carrying no images
polls 30 times and times out. -/
theorem c10_complete_without_images_witness :
    get_generation_images (fun _ =>
      { status_code := 200, text := "", has_generations_by_pk := true,
        status := "COMPLETE", generated_images := [], error := "" }) =
      { result := .timedOut, queries := 30, sleeps := 30 } := by
  have h := c10_complete_without_images (fun _ =>
      { status_code := 200, text := "", has_generations_by_pk := true,
        status := "COMPLETE", generated_images := [], error := "" })
    (by intro k _; exact ⟨rfl, rfl, rfl, rfl⟩)
  exact h.1

/-- C6: a non-success status response, after any run of responses the
loop retries on, stops polling at once: the loop issues exactly the one
more query, reports the http error, and neither succeeds nor times out. -/
theorem c6_non_success_stops_polling (responses : Nat → GenResponse) (k : Nat)
    (hk : k < MAX_RETRIES) (hpre : ∀ j, j < k → retriesOn (responses j))
    (hbad : (responses k).status_code ≠ 200) :
    get_generation_images responses =
      { result := .httpError (responses k).text, queries := k + 1, sleeps := k } ∧
    (get_generation_images responses).result ≠ PollResult.timedOut ∧
    (∀ imgs, (get_generation_images responses).result ≠ PollResult.complete imgs) := by
  have hmain : get_generation_images responses =
      { result := .httpError (responses k).text, queries := k + 1, sleeps := k } := by
    have := pollFrom_http_stop responses k 0 MAX_RETRIES hk (by simpa using hpre) (by simpa using hbad)
    simpa [get_generation_images] using this
  refine ⟨hmain, ?_, ?_⟩
  · rw [hmain]
    simp
  · intro imgs
    rw [hmain]
    simp

/-- Witness for C6: a first response with HTTP status 500 stops the loop
after a single query. -/
theorem c6_non_success_stops_polling_witness :
    get_generation_images (fun _ =>
      { status_code := 500, text := "boom", has_generations_by_pk := false,
        status := "", generated_images := [], error := "" }) =
      { result := .httpError "boom", queries := 1, sleeps := 0 } := by
  have h := c6_non_success_stops_polling (fun _ =>
      { status_code := 500, text := "boom", has_generations_by_pk := false,
        status := "", generated_images := [], error := "" })
    0 (by decide) (by intro j hj; omega) (by decide)
  exact h.1

/-- Prompt the main loop builds for scene index i. -/
def promptAt (scenes : List Scene) (refs : List RefImage) (i : Nat) : String :=
  generate_cinematic_prompt (scenes.getD i { script := "", description := "" }) (i + 1) refs

/-- Unfolding one more scene of the generation loop. -/
lemma runBatch_succ (scenes : List Scene) (refs : List RefImage)
    (submit poll : Nat → Option String) (n : Nat) :
    runBatch scenes refs submit poll (n + 1) =
      batchStep scenes refs submit poll (runBatch scenes refs submit poll n) n := by
  simp [runBatch, List.range_succ]

/-- Closed form of the generation loop: the entry list, error list and
progress list each collect, over the requested indices in order, exactly
the per-scene outcome. -/
lemma runBatch_char (scenes : List Scene) (refs : List RefImage)
    (submit poll : Nat → Option String) (n : Nat) :
    runBatch scenes refs submit poll n =
      { generated_images := (List.range n).filterMap (fun i => (sceneSuccess submit poll i).map
          (fun url => { url := url, prompt := promptAt scenes refs i })),
        errors := (List.range n).filterMap (sceneError submit poll),
        progress := (List.range n).filterMap (fun i => (sceneSuccess submit poll i).map (fun _ => i + 1)) } := by
  induction n with
  | zero => rfl
  | succ n ih =>
    rw [runBatch_succ, ih]
    rcases h1 : submit n with _ | g
    · simp [batchStep, sceneSuccess, sceneError, h1, List.range_succ, promptAt]
    · rcases h2 : poll n with _ | u
      · simp [batchStep, sceneSuccess, sceneError, h1, h2, List.range_succ, promptAt]
      · simp [batchStep, sceneSuccess, sceneError, h1, h2, List.range_succ, promptAt]

/-- Five one-line scenes used by the concrete counterexample runs. -/
def fiveScenes : List Scene :=
  [{ script := "s1", description := "" }, { script := "s2", description := "" },
   { script := "s3", description := "" }, { script := "s4", description := "" },
   { script := "s5", description := "" }]

/-- Submission oracle for the counterexample runs: scene 3 (index 2) fails
at submission, every other scene submits fine. -/
def submitFail3 : Nat → Option String :=
  fun i => if i = 2 then none else some "job"

/-- Poll oracle for the counterexample runs: every poll succeeds. -/
def pollAllOk : Nat → Option String :=
  fun _ => some "img-url"

/-- C1 as stated is false on the code: in the 5-scene run whose scene 3
submission fails, the result list has 4 entries, not 5; the failure
produces only an error message, never a failure entry. -/
theorem c1_counterexample :
    (runBatch fiveScenes [] submitFail3 pollAllOk 5).generated_images.length = 4 ∧
    (runBatch fiveScenes [] submitFail3 pollAllOk 5).generated_images.length ≠ 5 ∧
    (runBatch fiveScenes [] submitFail3 pollAllOk 5).errors =
      ["Failed to create generation for scene 3"] := by
  refine ⟨rfl, by decide, rfl⟩

/-- C1 amended: the batch records one entry per successful scene, in
requested order; a scene failing at submission or polling contributes an
error message and no entry, and processing continues with the next scene,
so the result length is at most n. -/
theorem c1_batch_entries (scenes : List Scene) (refs : List RefImage)
    (submit poll : Nat → Option String) (n : Nat) :
    (runBatch scenes refs submit poll n).generated_images =
      (List.range n).filterMap (fun i => (sceneSuccess submit poll i).map
        (fun url => { url := url, prompt := promptAt scenes refs i })) ∧
    (runBatch scenes refs submit poll n).errors =
      (List.range n).filterMap (sceneError submit poll) ∧
    (runBatch scenes refs submit poll n).generated_images.length ≤ n := by
  have h := runBatch_char scenes refs submit poll n
  refine ⟨by rw [h], by rw [h], ?_⟩
  rw [h]
  have hle := List.length_filterMap_le
    (fun i => (sceneSuccess submit poll i).map
      (fun url => ({ url := url, prompt := promptAt scenes refs i } : GeneratedEntry)))
    (List.range n)
  simpa using hle

/-- C2 as stated is false on the code: in the 5-scene run whose scene 3
submission fails, progress is reported only four times, with numerators
1, 2, 4, 5 over 5 — no report is issued after the failed scene. -/
theorem c2_counterexample :
    (runBatch fiveScenes [] submitFail3 pollAllOk 5).progress = [1, 2, 4, 5] ∧
    (runBatch fiveScenes [] submitFail3 pollAllOk 5).progress.length = 4 ∧
    (runBatch fiveScenes [] submitFail3 pollAllOk 5).progress.length ≠ 5 := by
  refine ⟨rfl, rfl, by decide⟩

/-- C2 amended: a progress report i+1 over n is issued exactly after each
successful scene i, in order; failed scenes issue no progress report. -/
theorem c2_progress_reports (scenes : List Scene) (refs : List RefImage)
    (submit poll : Nat → Option String) (n : Nat) :
    (runBatch scenes refs submit poll n).progress =
      (List.range n).filterMap (fun i => (sceneSuccess submit poll i).map (fun _ => i + 1)) := by
  rw [runBatch_char]

/-- C3 as stated is false on the code: with the credential missing and one
reference row filled in, upload_reference_image is still invoked during
form handling (issuing its network request), before the credential is ever
checked; the missing-credential error fires only at generation time. -/
theorem c3_counterexample :
    (mainRun none (fun _ => none)
      [{ image := some 7, description := "hero", tag := "character" }]
      fiveScenes 5 submitFail3 pollAllOk).upload_calls = [7] ∧
    (mainRun none (fun _ => none)
      [{ image := some 7, description := "hero", tag := "character" }]
      fiveScenes 5 submitFail3 pollAllOk).config_error = true := by
  exact ⟨rfl, rfl⟩

/-- C3 amended: a missing credential makes the generation phase stop with
the configuration error before any job submission or status poll — zero
submissions, zero polls, an untouched batch — and it is the only abort:
with a credential present every requested scene is submitted; reference
uploads, however, are attempted during form handling regardless of the
credential. -/
theorem c3_missing_credential (oracle : Nat → Option String) (refInputs : List RefInput)
    (scenes : List Scene) (n : Nat) (submit poll : Nat → Option String) :
    (mainRun none oracle refInputs scenes n submit poll).config_error = true ∧
    (mainRun none oracle refInputs scenes n submit poll).submit_calls = 0 ∧
    (mainRun none oracle refInputs scenes n submit poll).poll_calls = 0 ∧
    (mainRun none oracle refInputs scenes n submit poll).batch =
      { generated_images := [], errors := [], progress := [] } ∧
    (mainRun none oracle refInputs scenes n submit poll).upload_calls =
      (registerAll oracle refInputs).upload_calls ∧
    (∀ key, (mainRun (some key) oracle refInputs scenes n submit poll).config_error = false ∧
      (mainRun (some key) oracle refInputs scenes n submit poll).submit_calls = n) := by
  exact ⟨rfl, rfl, rfl, rfl, rfl, fun key => ⟨rfl, rfl⟩⟩

/-- Invariant of the reference-upload loop for an image identity m whose
upload the service answers with rid: either m was never uploaded and has
no cache entry, or it was uploaded exactly once and the cache holds
exactly one entry for it, carrying rid. -/
def regInv (m : Nat) (rid : String) (st : RegState) : Prop :=
  (st.upload_calls.count m = 0 ∧ st.uploaded_refs.filter (fun u => u.image = m) = []) ∨
  (st.upload_calls.count m = 1 ∧ ∃ d t,
    st.uploaded_refs.filter (fun u => u.image = m) =
      [{ image := m, description := d, tag := t, id := rid }])

/-- The upload-loop body preserves the registration invariant. -/
lemma registerStep_inv (oracle : Nat → Option String) (m : Nat) (rid : String)
    (hor : oracle m = some rid) (st : RegState) (r : RefInput)
    (h : regInv m rid st) : regInv m rid (registerStep oracle st r) := by
  rcases r with ⟨img, d, t⟩
  rcases img with _ | img
  · exact h
  · by_cases hd : d = ""
    · simpa [registerStep, hd] using h
    · by_cases hmem : st.uploaded_refs.any (fun u => u.image = img)
      · simpa [registerStep, hd, hmem] using h
      · by_cases him : img = m
        · subst him
          rcases h with ⟨hc, hf⟩ | ⟨hc, d0, t0, hf⟩
          · right
            refine ⟨?_, d, t, ?_⟩
            · simp [registerStep, hd, hmem, hor, List.count_append, hc]
            · simp [registerStep, hd, hmem, hor, List.filter_append, hf]
          · exfalso
            apply hmem
            have : ({ image := img, description := d0, tag := t0, id := rid } : UploadedRef) ∈
                st.uploaded_refs.filter (fun u => u.image = img) := by
              rw [hf]; exact List.mem_singleton_self _
            have hmem2 := (List.mem_filter.mp this).1
            exact List.any_eq_true.mpr ⟨_, hmem2, by simp⟩
        · rcases hcall : oracle img with _ | rid2
          · rcases h with ⟨hc, hf⟩ | ⟨hc, d0, t0, hf⟩
            · left
              refine ⟨?_, ?_⟩
              · simp [registerStep, hd, hmem, hcall, List.count_append, List.count_singleton', hc, him]
              · simpa [registerStep, hd, hmem, hcall] using hf
            · right
              refine ⟨?_, d0, t0, ?_⟩
              · simp [registerStep, hd, hmem, hcall, List.count_append, List.count_singleton', hc, him]
              · simpa [registerStep, hd, hmem, hcall] using hf
          · rcases h with ⟨hc, hf⟩ | ⟨hc, d0, t0, hf⟩
            · left
              refine ⟨?_, ?_⟩
              · simp [registerStep, hd, hmem, hcall, List.count_append, List.count_singleton', hc, him]
              · simp [registerStep, hd, hmem, hcall, List.filter_append, hf, him]
            · right
              refine ⟨?_, d0, t0, ?_⟩
              · simp [registerStep, hd, hmem, hcall, List.count_append, List.count_singleton', hc, him]
              · simp [registerStep, hd, hmem, hcall, List.filter_append, hf, him]

/-- The registration invariant holds of the whole upload loop. -/
lemma registerAll_inv (oracle : Nat → Option String) (m : Nat) (rid : String)
    (hor : oracle m = some rid) (inputs : List RefInput) :
    regInv m rid (registerAll oracle inputs) := by
  have hgen : ∀ (l : List RefInput) (st : RegState), regInv m rid st →
      regInv m rid (l.foldl (registerStep oracle) st) := by
    intro l
    induction l with
    | nil => intro st h; exact h
    | cons r rest ih =>
      intro st h
      exact ih _ (registerStep_inv oracle m rid hor st r h)
  exact hgen inputs _ (Or.inl ⟨rfl, rfl⟩)

/-- C9: when the service answers the upload of image m with remoteId rid,
the run invokes upload_reference_image for m at most once, the cache holds
at most one entry for m, and every cached entry for m carries rid — later
registrations of the same image reuse it instead of uploading again. -/
theorem c9_idempotent_registration (oracle : Nat → Option String) (inputs : List RefInput)
    (m : Nat) (rid : String) (hor : oracle m = some rid) :
    (registerAll oracle inputs).upload_calls.count m ≤ 1 ∧
    ((registerAll oracle inputs).uploaded_refs.filter (fun u => u.image = m)).length ≤ 1 ∧
    (∀ u ∈ (registerAll oracle inputs).uploaded_refs, u.image = m → u.id = rid) := by
  have h := registerAll_inv oracle m rid hor inputs
  rcases h with ⟨hc, hf⟩ | ⟨hc, d0, t0, hf⟩
  · refine ⟨by omega, by simp [hf], ?_⟩
    intro u hu him
    exfalso
    have : u ∈ (registerAll oracle inputs).uploaded_refs.filter (fun u => u.image = m) :=
      List.mem_filter.mpr ⟨hu, by simp [him]⟩
    rw [hf] at this
    exact (List.not_mem_nil u) this
  · refine ⟨by omega, by simp [hf], ?_⟩
    intro u hu him
    have : u ∈ (registerAll oracle inputs).uploaded_refs.filter (fun u => u.image = m) :=
      List.mem_filter.mpr ⟨hu, by simp [him]⟩
    rw [hf] at this
    have := List.mem_singleton.mp this
    rw [this]

/-- Witness for C9: submitting the same reference row twice uploads once
and caches the single remoteId. -/
theorem c9_idempotent_registration_witness :
    (registerAll (fun k => if k = 7 then some "RID" else none)
      [{ image := some 7, description := "hero", tag := "character" },
       { image := some 7, description := "hero", tag := "character" }]).upload_calls.count 7 ≤ 1 ∧
    (registerAll (fun k => if k = 7 then some "RID" else none)
      [{ image := some 7, description := "hero", tag := "character" },
       { image := some 7, description := "hero", tag := "character" }]).upload_calls = [7] := by
  constructor
  · exact (c9_idempotent_registration (fun k => if k = 7 then some "RID" else none)
      [{ image := some 7, description := "hero", tag := "character" },
       { image := some 7, description := "hero", tag := "character" }] 7 "RID" rfl).1
  · rfl

end Cinematic
